import Mathlib

/-!
Shallow embedding of the durable task orchestrator of `serve.py` (with the
database layer of `deep_research/db.py`).

Modelling choices, stated once:

* The persistent `tasks` table is a `List TaskRecord` (rows in insertion
  order).  `task_id` is the primary key, so at most one row per id is ever
  inserted by the program; `TaskStore.get` models the SQL lookup by returning
  the first row whose `task_id` matches, exactly as `select ... where` /
  `session.get` by primary key do.
* JSON serialization (`request_json`, `result_json`, `_record_from_db`) is a
  faithful round-trip of the pydantic models, so the embedding stores the
  structured values directly.
* Timestamps (`utcnow`) are modelled as `Nat` values supplied by the caller:
  each operation that writes `updated_at` takes the clock value as an
  argument.
* `uuid4().hex` is modelled as an id supplied by the caller (for single
  calls) or drawn from a stream `gen : Nat → String` (for sequences of
  `create` calls); the store never inspects or reuses ids on its own.
* `asyncio` coroutines become pure functions with explicit state passing.
  Every `TaskStore` method body runs under `self.lock` (a single global
  `asyncio.Lock`), so any concurrent execution of store operations is
  equivalent to some sequential order; sequences of store operations are
  therefore modelled as sequential compositions.
* The external pipeline call `agent.ainvoke(state)` is opaque: its outcome is
  an `Except String AgentResult` argument (`.ok` = the returned dict,
  `.error` = `str(exc)` of the raised exception).
* `raise HTTPException(...)` and FastAPI's 404/500 responses become the
  `.error` constructor of `Except HTTPException _`.
-/

/-- `TaskStatus = Literal["pending", "running", "succeeded", "failed"]`. -/
inductive TaskStatus where
  | pending
  | running
  | succeeded
  | failed
deriving DecidableEq, Repr

/-- `class ResearchRequest(BaseModel)`: a query and the `async_mode` flag. -/
structure ResearchRequest where
  query : String
  async_mode : Bool
deriving DecidableEq, Repr

/-- `class ResearchResponse(BaseModel)` with its field defaults
(`task_id=None`, `status="succeeded"`, `error=None`, lists empty). -/
structure ResearchResponse where
  task_id : Option String
  status : TaskStatus
  error : Option String
  research_brief : Option String
  draft_report : Option String
  notes : List String
  final_report : Option String
  messages : List String
deriving DecidableEq, Repr

/-- `class TaskRecord(BaseModel)` = the persisted row of the `tasks` table
(`TaskRecordDB`), restricted to the fields the orchestrator reads and writes
(`pending_action_json` is never written with anything but `None` and never
read, so it is omitted). -/
structure TaskRecord where
  task_id : String
  status : TaskStatus
  request : ResearchRequest
  result : Option ResearchResponse
  error : Option String
  created_at : Nat
  updated_at : Nat
deriving DecidableEq, Repr

/-- The dict returned by `agent.ainvoke`: the keys that
`_response_from_agent_result` reads via `result.get(...)`. -/
structure AgentResult where
  research_brief : Option String
  draft_report : Option String
  notes : List String
  final_report : Option String
  messages : List String
deriving DecidableEq, Repr

/-- `fastapi.HTTPException(status_code=..., detail=...)`. -/
structure HTTPException where
  status_code : Nat
  detail : String
deriving DecidableEq, Repr

deriving instance DecidableEq for Except

namespace TaskStore

/-- `TaskStore.get`: `select(TaskRecordDB).where(TaskRecordDB.task_id == task_id)`,
`scalar_one_or_none()`.  The session only executes a read, so the store is
unchanged; with `task_id` as primary key this returns the unique matching row,
modelled as the first match. -/
def get (s : List TaskRecord) (task_id : String) : Option TaskRecord :=
  s.find? (fun r => r.task_id == task_id)

/-- `TaskStore.create`: builds the `pending` row (result, error and
`pending_action_json` all `None`, both timestamps `now`), inserts it and
returns it.  The fresh `uuid4().hex` is the `task_id` argument. -/
def create (s : List TaskRecord) (request : ResearchRequest) (task_id : String)
    (now : Nat) : TaskRecord × List TaskRecord :=
  let record : TaskRecord :=
    { task_id := task_id
      status := .pending
      request := request
      result := none
      error := none
      created_at := now
      updated_at := now }
  (record, s ++ [record])

/-- The in-place mutation `update` performs on the fetched row:
`row.status = status`, `row.result_json = result... if result else None`,
`row.error = error`, `row.updated_at = utcnow()`. -/
def updRow (status : TaskStatus) (result : Option ResearchResponse)
    (error : Option String) (now : Nat) (r : TaskRecord) : TaskRecord :=
  { r with status := status, result := result, error := error, updated_at := now }

/-- Apply `g` to the (unique, by primary key) row with the given id; rows with
other ids are untouched. -/
def setRow (s : List TaskRecord) (task_id : String) (g : TaskRecord → TaskRecord) :
    List TaskRecord :=
  match s with
  | [] => []
  | r :: rest => if r.task_id == task_id then g r :: rest else r :: setRow rest task_id g

/-- `TaskStore.update`: fetch the row by primary key; if absent return `None`
with the store unchanged; otherwise overwrite status, result, error and
`updated_at` (result and error are overwritten even when the arguments were
omitted, i.e. `None`), commit, and return the updated record. -/
def update (s : List TaskRecord) (task_id : String) (status : TaskStatus)
    (result : Option ResearchResponse) (error : Option String) (now : Nat) :
    Option TaskRecord × List TaskRecord :=
  match get s task_id with
  | none => (none, s)
  | some row => (some (updRow status result error now row),
                 setRow s task_id (updRow status result error now))

end TaskStore

/-- `init_db` (`deep_research/db.py`): creates the tables if missing
(`Base.metadata.create_all`) and sets the SQLite `journal_mode` and
`busy_timeout` pragmas.  It performs no read or write of task rows, so on the
persisted task data it is the identity. -/
def init_db (s : List TaskRecord) : List TaskRecord := s

/-- `@app.on_event("startup") async def _startup(): await init_db()` — the
whole startup hook of `serve.py`. -/
def _startup (s : List TaskRecord) : List TaskRecord := init_db s

/-- `_response_from_agent_result`: repackages the agent's dict into a
`ResearchResponse` (`notes` and `messages` default to `[]` via `result.get`). -/
def _response_from_agent_result (result : AgentResult) (task_id : Option String)
    (status : TaskStatus) (error : Option String) : ResearchResponse :=
  { task_id := task_id
    status := status
    error := error
    research_brief := result.research_brief
    draft_report := result.draft_report
    notes := result.notes
    final_report := result.final_report
    messages := result.messages }

/-- The store state after the first line of `_run_task`,
`await store.update(task_id, status="running")`. -/
def _run_task_mid (s : List TaskRecord) (task_id : String) (now1 : Nat) :
    List TaskRecord :=
  (TaskStore.update s task_id .running none none now1).2

/-- `_run_task` with an infallible store: `update(running)`, then the agent
call; on success `update(succeeded, result=response)`, on a raised exception
`update(failed, error=str(exc))`. -/
def _run_task (s : List TaskRecord) (task_id : String)
    (outcome : Except String AgentResult) (now1 now2 : Nat) : List TaskRecord :=
  match outcome with
  | .ok result =>
      (TaskStore.update (_run_task_mid s task_id now1) task_id .succeeded
        (some (_response_from_agent_result result (some task_id) .succeeded none))
        none now2).2
  | .error exc =>
      (TaskStore.update (_run_task_mid s task_id now1) task_id .failed
        none (some exc) now2).2

/-- Outcome of one `run_research` request: the HTTP response (or raised
`HTTPException`), the store afterwards, and the `task_id` of the detached
`_run_task` coroutine scheduled via `asyncio.create_task`, when any. -/
structure RunResearchOutcome where
  response : Except HTTPException ResearchResponse
  store : List TaskRecord
  scheduled : Option String
deriving DecidableEq, Repr

/-- `POST /research` (`run_research`).  `fresh_id` is the `uuid4().hex` the
store would draw; `outcome` is the pipeline call's result (only consulted on
the SYNC path — on the ASYNC path the pipeline runs later, in `_run_task`). -/
def run_research (s : List TaskRecord) (payload : ResearchRequest)
    (fresh_id : String) (now : Nat) (outcome : Except String AgentResult) :
    RunResearchOutcome :=
  if payload.async_mode then
    let (record, s1) := TaskStore.create s payload fresh_id now
    { response := .ok { task_id := some record.task_id
                        status := .pending
                        error := none
                        research_brief := none
                        draft_report := none
                        notes := []
                        final_report := none
                        messages := [] }
      store := s1
      scheduled := some record.task_id }
  else
    match outcome with
    | .error exc => { response := .error ⟨500, exc⟩, store := s, scheduled := none }
    | .ok result =>
        { response := .ok (_response_from_agent_result result none .succeeded none)
          store := s
          scheduled := none }

/-- `GET /research/{task_id}` (`get_research`): 404 when the id is unknown;
the stored result verbatim when present; otherwise
`ResearchResponse(task_id, status, error)` with all other fields at their
defaults. -/
def get_research (s : List TaskRecord) (task_id : String) :
    Except HTTPException ResearchResponse :=
  match TaskStore.get s task_id with
  | none => .error ⟨404, "Task not found"⟩
  | some record =>
    match record.result with
    | some result => .ok result
    | none => .ok { task_id := some record.task_id
                    status := record.status
                    error := record.error
                    research_brief := none
                    draft_report := none
                    notes := []
                    final_report := none
                    messages := [] }

/-- Polling with the store threaded through explicitly: `TaskStore.get` only
executes a `select`, so the store component passes through unchanged. -/
def get_research_st (s : List TaskRecord) (task_id : String) :
    (Except HTTPException ResearchResponse) × List TaskRecord :=
  (get_research s task_id, s)

/-- `TaskStore.create` with a fallible commit: `io` is the fate of the
database write (`.error e` = the driver raised, modelled on the exception
message).  `create` has no handler, so a raised write propagates to its
caller and nothing is returned. -/
def TaskStore.createF (s : List TaskRecord) (request : ResearchRequest)
    (task_id : String) (now : Nat) (io : Except String Unit) :
    Except String (TaskRecord × List TaskRecord) :=
  match io with
  | .error e => .error e
  | .ok _ => .ok (TaskStore.create s request task_id now)

/-- `TaskStore.update` with a fallible commit: `update` has no handler either,
so a raised write propagates and the prior store state is left intact. -/
def TaskStore.updateF (s : List TaskRecord) (task_id : String)
    (status : TaskStatus) (result : Option ResearchResponse)
    (error : Option String) (now : Nat) (io : Except String Unit) :
    Except String ((Option TaskRecord) × List TaskRecord) :=
  match io with
  | .error e => .error e
  | .ok _ => .ok (TaskStore.update s task_id status result error now)

/-- `_run_task` with a fallible store, mirroring its `try/except` structure:
the initial `update(running)` sits OUTSIDE the `try`, so its failure
propagates out of the coroutine; the agent call and the `update(succeeded)`
sit INSIDE the `try`, whose `except Exception as exc` clause answers any of
their exceptions with `update(failed, error=str(exc))`.  `ioRun`, `ioFin` and
`ioCatch` are the fates of the three possible writes.  The result is the
store after the coroutine, or `.error` when an unhandled exception escapes
the (fire-and-forget) coroutine. -/
def _run_taskF (s : List TaskRecord) (task_id : String)
    (outcome : Except String AgentResult) (ioRun ioFin ioCatch : Except String Unit)
    (now1 now2 now3 : Nat) : Except String (List TaskRecord) :=
  match TaskStore.updateF s task_id .running none none now1 ioRun with
  | .error e => .error e
  | .ok (_, s1) =>
    let tryBlock : Except String (List TaskRecord) :=
      match outcome with
      | .error exc => .error exc
      | .ok result =>
        let response := _response_from_agent_result result (some task_id) .succeeded none
        match TaskStore.updateF s1 task_id .succeeded (some response) none now2 ioFin with
        | .error e => .error e
        | .ok (_, s2) => .ok s2
    match tryBlock with
    | .ok s2 => .ok s2
    | .error exc =>
      match TaskStore.updateF s1 task_id .failed none (some exc) now3 ioCatch with
      | .error e => .error e
      | .ok (_, s2) => .ok s2

/-- `n` calls of `TaskStore.create` (their bodies serialized by `self.lock`,
so any concurrent execution is some sequential order), the `i`-th drawing
`gen i` as its `uuid4().hex`; returns the list of returned `task_id`s and the
final store. -/
def createMany (s : List TaskRecord) (request : ResearchRequest)
    (gen : Nat → String) (now : Nat) : Nat → List String × List TaskRecord
  | 0 => ([], s)
  | n + 1 =>
    let prev := createMany s request gen now n
    let step := TaskStore.create prev.2 request (gen n) now
    (prev.1 ++ [step.1.task_id], step.2)

/-- The lifecycle order of §3: `pending → running → {succeeded, failed}`.
Both terminal statuses sit at the same, maximal rank. -/
def statusRank : TaskStatus → Nat
  | .pending => 0
  | .running => 1
  | .succeeded => 2
  | .failed => 2

/-- The §3 result/error gating invariant on one stored row: `result` is
present iff the status is `succeeded`, and `error` is present iff the status
is `failed`. -/
def resultErrorOK (r : TaskRecord) : Prop :=
  (r.result.isSome ↔ r.status = TaskStatus.succeeded) ∧
  (r.error.isSome ↔ r.status = TaskStatus.failed)

instance (r : TaskRecord) : Decidable (resultErrorOK r) :=
  inferInstanceAs (Decidable (_ ∧ _))

namespace TaskStore

theorem get_append (s t : List TaskRecord) (id : String)
    (h : get s id = none) : get (s ++ t) id = get t id := by
  unfold get at *
  rw [List.find?_append, h, Option.none_or]

theorem updRow_task_id (st : TaskStatus) (res : Option ResearchResponse)
    (err : Option String) (n : Nat) (r : TaskRecord) :
    (updRow st res err n r).task_id = r.task_id := rfl

theorem get_setRow_self (s : List TaskRecord) (id : String)
    (g : TaskRecord → TaskRecord) (hg : ∀ r, (g r).task_id = r.task_id) :
    get (setRow s id g) id = (get s id).map g := by
  induction s with
  | nil => rfl
  | cons r rest ih =>
    simp only [setRow]
    by_cases hr : (r.task_id == id) = true
    · rw [if_pos hr]
      unfold get
      rw [List.find?_cons_of_pos (a := g r) rest (by rw [hg]; exact hr)]
      rw [List.find?_cons_of_pos (a := r) rest hr]
      rfl
    · rw [if_neg hr]
      unfold get
      rw [List.find?_cons_of_neg (a := r) (setRow rest id g) hr]
      rw [List.find?_cons_of_neg (a := r) rest hr]
      exact ih

theorem mem_setRow (s : List TaskRecord) (id : String)
    (g : TaskRecord → TaskRecord) (r' : TaskRecord)
    (h : r' ∈ setRow s id g) : r' ∈ s ∨ ∃ r, r ∈ s ∧ r' = g r := by
  induction s with
  | nil => exact absurd h (by simp [setRow])
  | cons r rest ih =>
    unfold setRow at h
    by_cases hr : (r.task_id == id) = true
    · rw [if_pos hr] at h
      rcases List.mem_cons.mp h with h1 | h1
      · exact Or.inr ⟨r, List.mem_cons_self _ _, h1⟩
      · exact Or.inl (List.mem_cons_of_mem _ h1)
    · rw [if_neg hr] at h
      rcases List.mem_cons.mp h with h1 | h1
      · exact Or.inl (h1 ▸ List.mem_cons_self _ _)
      · rcases ih h1 with h2 | ⟨x, hx, hx'⟩
        · exact Or.inl (List.mem_cons_of_mem _ h2)
        · exact Or.inr ⟨x, List.mem_cons_of_mem _ hx, hx'⟩

theorem update_eq_of_get_some (s : List TaskRecord) (id : String)
    (st : TaskStatus) (res : Option ResearchResponse) (err : Option String)
    (n : Nat) (r : TaskRecord) (h : get s id = some r) :
    update s id st res err n =
      (some (updRow st res err n r), setRow s id (updRow st res err n)) := by
  unfold update
  rw [h]

theorem get_update_self (s : List TaskRecord) (id : String)
    (st : TaskStatus) (res : Option ResearchResponse) (err : Option String)
    (n : Nat) (r : TaskRecord) (h : get s id = some r) :
    get (update s id st res err n).2 id = some (updRow st res err n r) := by
  rw [update_eq_of_get_some s id st res err n r h]
  rw [get_setRow_self s id _ (updRow_task_id st res err n), h]
  rfl

theorem get_create_self (s : List TaskRecord) (req : ResearchRequest)
    (id : String) (now : Nat) (h : get s id = none) :
    get (create s req id now).2 id = some (create s req id now).1 := by
  unfold create
  simp only
  rw [get_append s _ id h]
  unfold get
  rw [List.find?_cons_of_pos _ (by simp)]

end TaskStore

/-- `update` re-establishes the result/error gating on the row it rewrites
whenever its `result`/`error` arguments match the gate of the written status,
and leaves every other row untouched. -/
theorem update_preserves_resultErrorOK (s : List TaskRecord) (id : String)
    (st : TaskStatus) (res : Option ResearchResponse) (err : Option String)
    (n : Nat) (hs : ∀ r ∈ s, resultErrorOK r)
    (hres : res.isSome ↔ st = TaskStatus.succeeded)
    (herr : err.isSome ↔ st = TaskStatus.failed) :
    ∀ r ∈ (TaskStore.update s id st res err n).2, resultErrorOK r := by
  unfold TaskStore.update
  cases hget : TaskStore.get s id with
  | none => simpa using hs
  | some row =>
    intro r' hr'
    rcases TaskStore.mem_setRow s id (TaskStore.updRow st res err n) r' hr' with
      h | ⟨r, _, rfl⟩
    · exact hs r' h
    · exact ⟨hres, herr⟩

/-- After `update(running)` the task's stored row is the prior row with
status `running`, cleared result/error, and the new timestamp. -/
theorem get_run_task_mid (s : List TaskRecord) (id : String) (n1 : Nat)
    (r : TaskRecord) (h : TaskStore.get s id = some r) :
    TaskStore.get (_run_task_mid s id n1) id =
      some (TaskStore.updRow TaskStatus.running none none n1 r) :=
  TaskStore.get_update_self s id TaskStatus.running none none n1 r h

/-- The row stored for the task after the whole detached routine, by pipeline
outcome. -/
theorem get_run_task (s : List TaskRecord) (id : String)
    (outcome : Except String AgentResult) (n1 n2 : Nat) (r : TaskRecord)
    (h : TaskStore.get s id = some r) :
    TaskStore.get (_run_task s id outcome n1 n2) id =
      some (match outcome with
        | .ok res => TaskStore.updRow TaskStatus.succeeded
            (some (_response_from_agent_result res (some id) TaskStatus.succeeded none))
            none n2 (TaskStore.updRow TaskStatus.running none none n1 r)
        | .error e => TaskStore.updRow TaskStatus.failed none (some e) n2
            (TaskStore.updRow TaskStatus.running none none n1 r)) := by
  have hmid := get_run_task_mid s id n1 r h
  cases outcome with
  | ok res =>
      exact TaskStore.get_update_self (_run_task_mid s id n1) id TaskStatus.succeeded
        (some (_response_from_agent_result res (some id) TaskStatus.succeeded none))
        none n2 (TaskStore.updRow TaskStatus.running none none n1 r) hmid
  | error e =>
      exact TaskStore.get_update_self (_run_task_mid s id n1) id TaskStatus.failed
        none (some e) n2 (TaskStore.updRow TaskStatus.running none none n1 r) hmid

/-- The `task_id`s returned by `n` serialized `create` calls are exactly the
first `n` draws of the id stream, in order. -/
theorem createMany_ids (s : List TaskRecord) (req : ResearchRequest)
    (gen : Nat → String) (now : Nat) (n : Nat) :
    (createMany s req gen now n).1 = (List.range n).map gen := by
  induction n with
  | zero => rfl
  | succ k ih =>
    simp only [createMany, List.range_succ, List.map_append, List.map_cons,
      List.map_nil, ih]
    rfl

/-- Sample request used to evaluate the theorems on concrete inputs. -/
def reqA : ResearchRequest := ⟨"q", true⟩

/-- Sample stored pipeline result. -/
def respA : ResearchResponse :=
  ⟨some "a", .succeeded, none, some "brief", some "draft", ["note"], some "report", ["msg"]⟩

/-- Sample pipeline output dict. -/
def agentA : AgentResult := ⟨some "brief", some "draft", ["note"], some "report", ["msg"]⟩

/-- A settled, succeeded row. -/
def rowSucceeded : TaskRecord := ⟨"a", .succeeded, reqA, some respA, none, 0, 1⟩

/-- A settled, failed row. -/
def rowFailed : TaskRecord := ⟨"f", .failed, reqA, none, some "boom", 0, 1⟩

/-- An in-flight row. -/
def rowRunning : TaskRecord := ⟨"b", .running, reqA, none, none, 0, 1⟩

/-- A freshly created row. -/
def rowPending : TaskRecord := ⟨"p", .pending, reqA, none, none, 0, 0⟩

/-- **C1** (amended).  At process startup `_startup` runs only `init_db`,
which initializes the schema and touches no task row: the persisted tasks are
left exactly as they were, and a task persisted as `pending` or `running`
(hence with no stored result) still polls after the restart with its prior,
non-`failed` status and its prior error field.  No reconciliation to `failed`
and no interruption message exists anywhere in the startup path. -/
theorem startup_preserves_task_rows (s : List TaskRecord) (id : String)
    (r : TaskRecord) (h : TaskStore.get s id = some r)
    (hnt : r.status = TaskStatus.pending ∨ r.status = TaskStatus.running)
    (hres : r.result = none) :
    _startup s = s ∧
    get_research (_startup s) id =
      .ok ⟨some r.task_id, r.status, r.error, none, none, [], none, []⟩ ∧
    r.status ≠ TaskStatus.failed := by
  refine ⟨rfl, ?_, ?_⟩
  · show get_research s id = _
    unfold get_research
    rw [h]
    simp [hres]
  · rcases hnt with h1 | h1 <;> rw [h1] <;> exact fun hc => TaskStatus.noConfusion hc

/-- **C1** witness: a store holding one `running` task, polled after
`_startup`. -/
theorem startup_preserves_task_rows_witness :
    _startup [rowRunning] = [rowRunning] ∧
    get_research (_startup [rowRunning]) "b" =
      .ok ⟨some rowRunning.task_id, rowRunning.status, rowRunning.error,
           none, none, [], none, []⟩ ∧
    rowRunning.status ≠ TaskStatus.failed :=
  startup_preserves_task_rows [rowRunning] "b" rowRunning (by decide)
    (Or.inr rfl) rfl

/-- **C1** counterexample to the claim as stated: after a restart with a
persisted `running` task, `_startup` rewrites nothing, and polling the task
returns status `running` with a `none` error — not status `failed` with a
non-empty error as the claim requires. -/
theorem startup_no_reconciliation_cex :
    _startup [⟨"t1", TaskStatus.running, ⟨"q", true⟩, none, none, 0, 0⟩] =
      [⟨"t1", TaskStatus.running, ⟨"q", true⟩, none, none, 0, 0⟩] ∧
    get_research (_startup [⟨"t1", TaskStatus.running, ⟨"q", true⟩, none, none, 0, 0⟩]) "t1" =
      .ok ⟨some "t1", TaskStatus.running, none, none, none, [], none, []⟩ := by
  exact ⟨rfl, by decide⟩

/-- **C2** (amended).  The transitions the system itself performs for a task
are monotonic along `pending → running → {succeeded, failed}`: `create`
stores `pending`, the detached routine then stores `running` and finally
exactly one terminal status, each step strictly increasing `statusRank`.
The store's `update`, however, enforces no guard, so a direct `update` call
can move a task out of a terminal state or backwards (see the
counterexample). -/
theorem system_status_transitions_monotonic (s : List TaskRecord)
    (req : ResearchRequest) (id : String) (now n1 n2 : Nat)
    (outcome : Except String AgentResult)
    (hfresh : TaskStore.get s id = none) :
    (TaskStore.create s req id now).1.status = TaskStatus.pending ∧
    TaskStore.get (TaskStore.create s req id now).2 id =
      some ⟨id, TaskStatus.pending, req, none, none, now, now⟩ ∧
    TaskStore.get (_run_task_mid (TaskStore.create s req id now).2 id n1) id =
      some ⟨id, TaskStatus.running, req, none, none, now, n1⟩ ∧
    TaskStore.get (_run_task (TaskStore.create s req id now).2 id outcome n1 n2) id =
      some (match outcome with
        | .ok res => ⟨id, TaskStatus.succeeded, req,
            some (_response_from_agent_result res (some id) TaskStatus.succeeded none),
            none, now, n2⟩
        | .error e => ⟨id, TaskStatus.failed, req, none, some e, now, n2⟩) ∧
    statusRank TaskStatus.pending < statusRank TaskStatus.running ∧
    statusRank TaskStatus.running < statusRank TaskStatus.succeeded ∧
    statusRank TaskStatus.running < statusRank TaskStatus.failed := by
  have hc : TaskStore.get (TaskStore.create s req id now).2 id =
      some ⟨id, TaskStatus.pending, req, none, none, now, now⟩ :=
    TaskStore.get_create_self s req id now hfresh
  refine ⟨rfl, hc, get_run_task_mid _ id n1 _ hc, ?_, by decide, by decide, by decide⟩
  cases outcome with
  | ok res => exact get_run_task _ id (Except.ok res) n1 n2 _ hc
  | error e => exact get_run_task _ id (Except.error e) n1 n2 _ hc

/-- **C2** witness: one task created in an empty store and run to success. -/
theorem system_status_transitions_monotonic_witness :
    (TaskStore.create [] reqA "t" 0).1.status = TaskStatus.pending ∧
    TaskStore.get (TaskStore.create [] reqA "t" 0).2 "t" =
      some ⟨"t", TaskStatus.pending, reqA, none, none, 0, 0⟩ ∧
    TaskStore.get (_run_task_mid (TaskStore.create [] reqA "t" 0).2 "t" 1) "t" =
      some ⟨"t", TaskStatus.running, reqA, none, none, 0, 1⟩ ∧
    TaskStore.get (_run_task (TaskStore.create [] reqA "t" 0).2 "t" (.ok agentA) 1 2) "t" =
      some ⟨"t", TaskStatus.succeeded, reqA,
        some (_response_from_agent_result agentA (some "t") TaskStatus.succeeded none),
        none, 0, 2⟩ ∧
    statusRank TaskStatus.pending < statusRank TaskStatus.running ∧
    statusRank TaskStatus.running < statusRank TaskStatus.succeeded ∧
    statusRank TaskStatus.running < statusRank TaskStatus.failed :=
  system_status_transitions_monotonic [] reqA "t" 0 1 2 (Except.ok agentA) rfl

/-- **C2** counterexample to the claim as stated: `TaskStore.update` applied
to a `succeeded` (terminal) task with status `pending` rewrites the stored
row to `pending` — an operation of the store moved a task out of a terminal
state, backwards along the lifecycle order. -/
theorem update_unguarded_cex :
    (TaskStore.update
        [⟨"a", TaskStatus.succeeded, ⟨"q", false⟩,
          some ⟨some "a", TaskStatus.succeeded, none, none, none, [], none, []⟩,
          none, 0, 0⟩]
        "a" TaskStatus.pending none none 5).2 =
      [⟨"a", TaskStatus.pending, ⟨"q", false⟩, none, none, 0, 5⟩] ∧
    statusRank TaskStatus.pending < statusRank TaskStatus.succeeded := by
  exact ⟨by decide, by decide⟩

/-- **C3**.  The result/error gating invariant (`result` present iff
`succeeded`, `error` present iff `failed`) holds for the row written by
`create` and is preserved by every store write the system performs: the
detached routine's `update(running)`, `update(succeeded, result=...)` with a
present result, and `update(failed, error=str(exc))` with a present error all
re-establish the gate on the row they rewrite and touch no other row.
(The SYNC path and polling never write.) -/
theorem create_and_run_preserve_gating (s : List TaskRecord)
    (req : ResearchRequest) (id : String) (now n1 n2 : Nat)
    (outcome : Except String AgentResult)
    (hs : ∀ r ∈ s, resultErrorOK r) :
    (∀ r ∈ (TaskStore.create s req id now).2, resultErrorOK r) ∧
    (∀ r ∈ _run_task s id outcome n1 n2, resultErrorOK r) := by
  constructor
  · intro r hr
    rcases List.mem_append.mp hr with h | h
    · exact hs r h
    · rcases List.mem_singleton.mp h with rfl
      exact ⟨by simp, by simp⟩
  · have h1 : ∀ r ∈ _run_task_mid s id n1, resultErrorOK r :=
      update_preserves_resultErrorOK s id TaskStatus.running none none n1 hs
        (by simp) (by simp)
    cases outcome with
    | ok res =>
        exact update_preserves_resultErrorOK (_run_task_mid s id n1) id
          TaskStatus.succeeded
          (some (_response_from_agent_result res (some id) TaskStatus.succeeded none))
          none n2 h1 (by simp) (by simp)
    | error e =>
        exact update_preserves_resultErrorOK (_run_task_mid s id n1) id
          TaskStatus.failed none (some e) n2 h1 (by simp) (by simp)

/-- **C3** witness: a store already holding one row of each settled and
unsettled kind, a fresh creation, and a run ending in failure. -/
theorem create_and_run_preserve_gating_witness :
    (∀ r ∈ (TaskStore.create [rowSucceeded, rowFailed, rowPending] reqA "t" 3).2,
      resultErrorOK r) ∧
    (∀ r ∈ _run_task [rowSucceeded, rowFailed, rowPending] "t" (.error "boom") 4 5,
      resultErrorOK r) :=
  create_and_run_preserve_gating [rowSucceeded, rowFailed, rowPending]
    reqA "t" 3 4 5 (.error "boom") (by decide)

/-- **C4**.  A submission with `async_mode = true` responds immediately with
`{task_id, status = pending}` for the freshly created task (the new `pending`
row is appended to the store and the detached `_run_task` is scheduled for
exactly that id), and the detached routine then stores `running` first and
finally, in the same order as the code, `succeeded` with the repackaged
result on pipeline success or `failed` with the exception string on pipeline
failure — no other transition is performed. -/
theorem async_submit_contract (s : List TaskRecord) (payload : ResearchRequest)
    (fid : String) (now n1 n2 : Nat)
    (outcome pipeline : Except String AgentResult)
    (hasync : payload.async_mode = true)
    (hfresh : TaskStore.get s fid = none) :
    run_research s payload fid now outcome =
      ⟨.ok ⟨some fid, TaskStatus.pending, none, none, none, [], none, []⟩,
       s ++ [⟨fid, TaskStatus.pending, payload, none, none, now, now⟩],
       some fid⟩ ∧
    TaskStore.get
        (_run_task_mid (run_research s payload fid now outcome).store fid n1) fid =
      some ⟨fid, TaskStatus.running, payload, none, none, now, n1⟩ ∧
    TaskStore.get
        (_run_task (run_research s payload fid now outcome).store fid pipeline n1 n2) fid =
      some (match pipeline with
        | .ok res => ⟨fid, TaskStatus.succeeded, payload,
            some (_response_from_agent_result res (some fid) TaskStatus.succeeded none),
            none, now, n2⟩
        | .error e => ⟨fid, TaskStatus.failed, payload, none, some e, now, n2⟩) := by
  have h1 : run_research s payload fid now outcome =
      ⟨.ok ⟨some fid, TaskStatus.pending, none, none, none, [], none, []⟩,
       s ++ [⟨fid, TaskStatus.pending, payload, none, none, now, now⟩],
       some fid⟩ := by
    simp [run_research, hasync, TaskStore.create]
  have hget : TaskStore.get (run_research s payload fid now outcome).store fid =
      some ⟨fid, TaskStatus.pending, payload, none, none, now, now⟩ := by
    rw [h1]
    exact TaskStore.get_create_self s payload fid now hfresh
  refine ⟨h1, get_run_task_mid _ fid n1 _ hget, ?_⟩
  cases pipeline with
  | ok res => exact get_run_task _ fid (Except.ok res) n1 n2 _ hget
  | error e => exact get_run_task _ fid (Except.error e) n1 n2 _ hget

/-- **C4** witness: an async submission into an empty store whose detached
run fails. -/
theorem async_submit_contract_witness :
    run_research [] reqA "t" 0 (.ok agentA) =
      ⟨.ok ⟨some "t", TaskStatus.pending, none, none, none, [], none, []⟩,
       [⟨"t", TaskStatus.pending, reqA, none, none, 0, 0⟩],
       some "t"⟩ ∧
    TaskStore.get
        (_run_task_mid (run_research [] reqA "t" 0 (.ok agentA)).store "t" 1) "t" =
      some ⟨"t", TaskStatus.running, reqA, none, none, 0, 1⟩ ∧
    TaskStore.get
        (_run_task (run_research [] reqA "t" 0 (.ok agentA)).store "t"
          (.error "boom") 1 2) "t" =
      some ⟨"t", TaskStatus.failed, reqA, none, some "boom", 0, 2⟩ :=
  async_submit_contract [] reqA "t" 0 1 2 (.ok agentA) (.error "boom") rfl rfl

/-- **C5**.  Polling: an unknown `task_id` yields the 404 `HTTPException`
(and in particular never an `ok` response, so it cannot be confused with a
pending or running task); a stored result is returned verbatim; otherwise the
response is `{task_id, status, error}` read from the stored row with every
other field at its default. -/
theorem poll_cases (s : List TaskRecord) (id : String) :
    (TaskStore.get s id = none →
      get_research s id = .error ⟨404, "Task not found"⟩) ∧
    (∀ r res, TaskStore.get s id = some r → r.result = some res →
      get_research s id = .ok res) ∧
    (∀ r, TaskStore.get s id = some r → r.result = none →
      get_research s id =
        .ok ⟨some r.task_id, r.status, r.error, none, none, [], none, []⟩) ∧
    (TaskStore.get s id = none → ∀ resp, get_research s id ≠ Except.ok resp) := by
  refine ⟨?_, ?_, ?_, ?_⟩
  · intro h
    unfold get_research
    rw [h]
  · intro r res h hres
    unfold get_research
    rw [h]
    simp [hres]
  · intro r h hres
    unfold get_research
    rw [h]
    simp [hres]
  · intro h resp hresp
    unfold get_research at hresp
    rw [h] at hresp
    simp at hresp

/-- **C5** witness: the three poll shapes, each at a concrete store. -/
theorem poll_cases_witness :
    get_research [] "x" = .error ⟨404, "Task not found"⟩ ∧
    get_research [rowSucceeded] "a" = .ok respA ∧
    get_research [rowRunning] "b" =
      .ok ⟨some rowRunning.task_id, rowRunning.status, rowRunning.error,
           none, none, [], none, []⟩ ∧
    get_research [] "x" ≠
      Except.ok ⟨some "x", TaskStatus.pending, none, none, none, [], none, []⟩ :=
  ⟨(poll_cases [] "x").1 rfl,
   (poll_cases [rowSucceeded] "a").2.1 rowSucceeded respA (by decide) rfl,
   (poll_cases [rowRunning] "b").2.2.1 rowRunning (by decide) rfl,
   (poll_cases [] "x").2.2.2 rfl _⟩

/-- **C6**.  A submission with `async_mode = false` whose pipeline invocation
raises answers with the request-level 500 failure carrying the exception
string, leaves the store exactly as it was (the SYNC path never calls
`create` or `update`), and schedules no detached task. -/
theorem sync_failure_no_task (s : List TaskRecord) (payload : ResearchRequest)
    (fid : String) (now : Nat) (exc : String)
    (hsync : payload.async_mode = false) :
    run_research s payload fid now (.error exc) =
      ⟨.error ⟨500, exc⟩, s, none⟩ := by
  simp [run_research, hsync]

/-- **C6** witness: a sync submission over a non-empty store whose pipeline
raises. -/
theorem sync_failure_no_task_witness :
    run_research [rowSucceeded] ⟨"Y", false⟩ "t" 9 (.error "pipeline blew up") =
      ⟨.error ⟨500, "pipeline blew up"⟩, [rowSucceeded], none⟩ :=
  sync_failure_no_task [rowSucceeded] ⟨"Y", false⟩ "t" 9 "pipeline blew up" rfl

/-- **C7** (amended).  A failing persistence write does propagate out of the
store operation itself — neither `create` nor `update` has a handler — and a
failure of the `update(running)` call, which sits outside `_run_task`'s
`try`, propagates out of the detached routine.  However, a write failure
raised inside the `try` block (the `update(succeeded, ...)` call) is caught
by the routine's `except Exception` clause and converted into
`update(failed, error=str(exc))`, so it is not re-raised and can be recorded
as a terminal task state (see the counterexample). -/
theorem store_failures_propagate_outside_try (s : List TaskRecord)
    (req : ResearchRequest) (id : String) (st : TaskStatus)
    (res : Option ResearchResponse) (err : Option String) (now : Nat)
    (e : String) (outcome : Except String AgentResult)
    (ioFin ioCatch : Except String Unit) (n1 n2 n3 : Nat) :
    TaskStore.createF s req id now (.error e) = .error e ∧
    TaskStore.updateF s id st res err now (.error e) = .error e ∧
    _run_taskF s id outcome (.error e) ioFin ioCatch n1 n2 n3 = .error e :=
  ⟨rfl, rfl, rfl⟩

/-- **C7** counterexample to the claim as stated: the pipeline succeeds, but
the `update(succeeded, ...)` write fails ("disk full").  The exception does
not propagate (the routine completes with `.ok`); instead the `except` clause
records the task as `failed` with the write failure's message as `error` — a
failed persistence write recorded as a terminal task status. -/
theorem store_failure_recorded_as_failed_cex :
    _run_taskF [⟨"t1", TaskStatus.pending, ⟨"q", true⟩, none, none, 0, 0⟩] "t1"
        (.ok ⟨some "b", some "d", ["n"], some "r", ["m"]⟩)
        (.ok ()) (.error "disk full") (.ok ()) 1 2 3
      = .ok [⟨"t1", TaskStatus.failed, ⟨"q", true⟩, none, some "disk full", 0, 3⟩] := by
  decide

/-- **C8**.  Polling a settled task is an idempotent read: `TaskStore.get`
only executes a `select`, so the store after each poll is the original one,
two successive polls of the same `task_id` return equal responses, and the
stored record is unchanged. -/
theorem poll_settled_idempotent (s : List TaskRecord) (id : String)
    (r : TaskRecord) (h : TaskStore.get s id = some r)
    (_hterm : r.status = TaskStatus.succeeded ∨ r.status = TaskStatus.failed) :
    (get_research_st s id).1 = (get_research_st (get_research_st s id).2 id).1 ∧
    (get_research_st s id).2 = s ∧
    (get_research_st (get_research_st s id).2 id).2 = s ∧
    TaskStore.get (get_research_st (get_research_st s id).2 id).2 id = some r :=
  ⟨rfl, rfl, rfl, h⟩

/-- **C8** witness: two successive polls of a settled (failed) task. -/
theorem poll_settled_idempotent_witness :
    (get_research_st [rowFailed] "f").1 =
      (get_research_st (get_research_st [rowFailed] "f").2 "f").1 ∧
    (get_research_st [rowFailed] "f").2 = [rowFailed] ∧
    (get_research_st (get_research_st [rowFailed] "f").2 "f").2 = [rowFailed] ∧
    TaskStore.get (get_research_st (get_research_st [rowFailed] "f").2 "f").2 "f" =
      some rowFailed :=
  poll_settled_idempotent [rowFailed] "f" rowFailed (by decide) (Or.inr rfl)

/-- **C9**.  Any number of `create` calls — serialized by the store's lock,
so modelled in their serialization order, each drawing its `uuid4().hex` from
the id stream `gen` — return pairwise distinct `task_id`s, each also distinct
from every `task_id` already present in the store.  The hypotheses are
exactly uuid4's collision-freedom guarantee: the drawn ids neither repeat nor
hit a pre-existing id; the store itself passes each drawn id through
unchanged and never reuses one. -/
theorem create_ids_pairwise_distinct (s : List TaskRecord)
    (req : ResearchRequest) (gen : Nat → String) (now n : Nat)
    (hinj : ∀ i, i < n → ∀ j, j < n → gen i = gen j → i = j)
    (hfresh : ∀ i, i < n → ∀ r ∈ s, r.task_id ≠ gen i) :
    (createMany s req gen now n).1.Nodup ∧
    ∀ id ∈ (createMany s req gen now n).1, ∀ r ∈ s, r.task_id ≠ id := by
  rw [createMany_ids]
  constructor
  · exact List.Nodup.map_on
      (fun i hi j hj hij =>
        hinj i (List.mem_range.mp hi) j (List.mem_range.mp hj) hij)
      (List.nodup_range n)
  · intro id hid r hr
    rcases List.mem_map.mp hid with ⟨i, hi, rfl⟩
    exact hfresh i (List.mem_range.mp hi) r hr

/-- **C9** witness: two creations into a store already holding one task, with
an explicit injective id stream avoiding the existing id. -/
theorem create_ids_pairwise_distinct_witness :
    (createMany [rowSucceeded] reqA (fun i => if i = 0 then "x" else "y") 0 2).1.Nodup ∧
    ∀ id ∈ (createMany [rowSucceeded] reqA (fun i => if i = 0 then "x" else "y") 0 2).1,
      ∀ r ∈ [rowSucceeded], r.task_id ≠ id :=
  create_ids_pairwise_distinct [rowSucceeded] reqA
    (fun i => if i = 0 then "x" else "y") 0 2
    (by decide) (by decide)

/-- **C10**.  `update` with `result` and `error` omitted (their Python
defaults, `None`) overwrites both stored fields with `None` regardless of
what was stored before: the updated row keeps only `task_id`, `request` and
`created_at`, takes the given status and the new `updated_at`, and has
`result = none` and `error = none`. -/
theorem update_overwrites_result_error (s : List TaskRecord) (id : String)
    (r : TaskRecord) (st : TaskStatus) (n : Nat)
    (h : TaskStore.get s id = some r) :
    TaskStore.update s id st none none n =
      (some ⟨r.task_id, st, r.request, none, none, r.created_at, n⟩,
       TaskStore.setRow s id (TaskStore.updRow st none none n)) ∧
    TaskStore.get (TaskStore.update s id st none none n).2 id =
      some ⟨r.task_id, st, r.request, none, none, r.created_at, n⟩ :=
  ⟨TaskStore.update_eq_of_get_some s id st none none n r h,
   TaskStore.get_update_self s id st none none n r h⟩

/-- **C10** witness: a row holding both a result and an error string, updated
with both arguments omitted. -/
theorem update_overwrites_result_error_witness :
    TaskStore.update [⟨"z", TaskStatus.succeeded, reqA, some respA, some "old", 0, 0⟩]
        "z" TaskStatus.running none none 7 =
      (some ⟨"z", TaskStatus.running, reqA, none, none, 0, 7⟩,
       TaskStore.setRow [⟨"z", TaskStatus.succeeded, reqA, some respA, some "old", 0, 0⟩]
         "z" (TaskStore.updRow TaskStatus.running none none 7)) ∧
    TaskStore.get
        (TaskStore.update [⟨"z", TaskStatus.succeeded, reqA, some respA, some "old", 0, 0⟩]
          "z" TaskStatus.running none none 7).2 "z" =
      some ⟨"z", TaskStatus.running, reqA, none, none, 0, 7⟩ :=
  update_overwrites_result_error
    [⟨"z", TaskStatus.succeeded, reqA, some respA, some "old", 0, 0⟩]
    "z" ⟨"z", TaskStatus.succeeded, reqA, some respA, some "old", 0, 0⟩
    TaskStatus.running 7 (by decide)
